import Mathlib

/-!
Verification development for the screenshot-annotation canvas subsystem of
the clipboard repository.  Coordinates are modelled as exact rationals (the
source computes with IEEE doubles; all operations verified here are linear
or order-theoretic, where the rational model is the intended semantics).

Embedded source locations:
* `src/composables/shapes/index.ts` — shape data model and registry
* `src/composables/shapes/rectHandler.ts` — RectHandler
* `src/composables/shapes/ellipseHandler.ts` — EllipseHandler
* `src/composables/shapes/arrowHandler.ts` — ArrowHandler, buildArrowPathData
* `src/composables/shapes/penHandler.ts` — PenHandler
* `src/composables/shapes/textHandler.ts` — TextHandler
* `src/composables/useFabricCanvas.ts` — history (saveHistory/undo/redo),
  toDataURL
* the region-selection component — selection move/resize/mouse-up logic
* `src/components/HighlightText.vue` — search highlight fallback
-/

namespace Clipboard

/-- `Point2D` from `shapes/index.ts`: a point in editing-surface pixel space. -/
structure Point2D where
  x : ℚ
  y : ℚ
deriving Repr, DecidableEq

/-- `ShapeType` from `shapes/index.ts`: the closed set of shape kinds. -/
inductive ShapeType where
  | rect
  | ellipse
  | arrow
  | pen
  | text
deriving Repr, DecidableEq

/-- `RectShapeData` from `shapes/index.ts` (the `type` tag is kept as a field,
as in the TypeScript interface). -/
structure RectShapeData where
  type : ShapeType
  x1 : ℚ
  y1 : ℚ
  x2 : ℚ
  y2 : ℚ
deriving Repr, DecidableEq

/-- `EllipseShapeData` from `shapes/index.ts`. -/
structure EllipseShapeData where
  type : ShapeType
  x1 : ℚ
  y1 : ℚ
  x2 : ℚ
  y2 : ℚ
deriving Repr, DecidableEq

/-- `ArrowShapeData` from `shapes/index.ts`. -/
structure ArrowShapeData where
  type : ShapeType
  x1 : ℚ
  y1 : ℚ
  x2 : ℚ
  y2 : ℚ
deriving Repr, DecidableEq

/-- `PenShapeData` from `shapes/index.ts`. -/
structure PenShapeData where
  type : ShapeType
  points : List Point2D
deriving Repr, DecidableEq

/-- `TextShapeData` from `shapes/index.ts`. -/
structure TextShapeData where
  type : ShapeType
  x : ℚ
  y : ℚ
  text : String
  fontSize : ℚ
deriving Repr, DecidableEq

/-- `ShapeData` from `shapes/index.ts`: the tagged union of the five shape
data variants. -/
inductive ShapeData where
  | rect (d : RectShapeData)
  | ellipse (d : EllipseShapeData)
  | arrow (d : ArrowShapeData)
  | pen (d : PenShapeData)
  | text (d : TextShapeData)
deriving Repr, DecidableEq

/-- `RectHandler.createData` (`rectHandler.ts` lines 37–50): rejects when
either extent is below 2 px. -/
def rectCreateData (start current : Point2D) : Option ShapeData :=
  let width := |current.x - start.x|
  let height := |current.y - start.y|
  if width < 2 ∨ height < 2 then none
  else some (.rect ⟨.rect, start.x, start.y, current.x, current.y⟩)

/-- `EllipseHandler.createData` (`ellipseHandler.ts` lines 50–63): computes
the half-extents `rx`, `ry` and rejects when either is below 2 px. -/
def ellipseCreateData (start current : Point2D) : Option ShapeData :=
  let rx := |current.x - start.x| / 2
  let ry := |current.y - start.y| / 2
  if rx < 2 ∨ ry < 2 then none
  else some (.ellipse ⟨.ellipse, start.x, start.y, current.x, current.y⟩)

/-- `ArrowHandler.createData` (`arrowHandler.ts` lines 82–95): rejects when
both extents are below 5 px. -/
def arrowCreateData (start current : Point2D) : Option ShapeData :=
  let dx := |current.x - start.x|
  let dy := |current.y - start.y|
  if dx < 5 ∧ dy < 5 then none
  else some (.arrow ⟨.arrow, start.x, start.y, current.x, current.y⟩)

/-- `PenHandler.createData` (`penHandler.ts` lines 28–41): uses the
accumulated points when provided (`points || [start, current]`), rejecting
when fewer than 2 points exist. -/
def penCreateData (start current : Point2D) (points : Option (List Point2D)) :
    Option ShapeData :=
  let allPoints := points.getD [start, current]
  if allPoints.length < 2 then none
  else some (.pen ⟨.pen, allPoints⟩)

/-- `TextHandler.createData` (`textHandler.ts`): never rejects; returns an
empty-text placeholder anchored at the start point with font size 20. -/
def textCreateData (start _current : Point2D) : Option ShapeData :=
  some (.text ⟨.text, start.x, start.y, "", 20⟩)

/-- `ShapeRegistry.getHandler(type).createData(start, current, points)`:
dispatch over the five registered handlers, as driven by
`handleMouseMove` in `useFabricCanvas.ts`. -/
def dispatchCreateData (t : ShapeType) (start current : Point2D)
    (points : Option (List Point2D)) : Option ShapeData :=
  match t with
  | .rect => rectCreateData start current
  | .ellipse => ellipseCreateData start current
  | .arrow => arrowCreateData start current
  | .pen => penCreateData start current points
  | .text => textCreateData start current

/-- `ArrowHandler.move` (`arrowHandler.ts` lines 122–130): translate the two
endpoints, spreading all other fields unchanged. -/
def arrowMove (data : ArrowShapeData) (dx dy : ℚ) : ArrowShapeData :=
  { data with
    x1 := data.x1 + dx
    y1 := data.y1 + dy
    x2 := data.x2 + dx
    y2 := data.y2 + dy }

/-- `RectHandler.move` (`rectHandler.ts` lines 71–79). -/
def rectMove (data : RectShapeData) (dx dy : ℚ) : RectShapeData :=
  { data with
    x1 := data.x1 + dx
    y1 := data.y1 + dy
    x2 := data.x2 + dx
    y2 := data.y2 + dy }

/-- `EllipseHandler.move` (`ellipseHandler.ts` lines 84–92). -/
def ellipseMove (data : EllipseShapeData) (dx dy : ℚ) : EllipseShapeData :=
  { data with
    x1 := data.x1 + dx
    y1 := data.y1 + dy
    x2 := data.x2 + dx
    y2 := data.y2 + dy }

/-- `PenHandler.move` (`penHandler.ts` lines 62–70): translate every point. -/
def penMove (data : PenShapeData) (dx dy : ℚ) : PenShapeData :=
  { data with points := data.points.map (fun p => ⟨p.x + dx, p.y + dy⟩) }

/-- `TextHandler.move` (`textHandler.ts`): translate the anchor. -/
def textMove (data : TextShapeData) (dx dy : ℚ) : TextShapeData :=
  { data with x := data.x + dx, y := data.y + dy }

/-- Handler dispatch for `move`, as used by the `object:moving` listener in
`useFabricCanvas.ts`. -/
def dispatchMove (d : ShapeData) (dx dy : ℚ) : ShapeData :=
  match d with
  | .rect r => .rect (rectMove r dx dy)
  | .ellipse e => .ellipse (ellipseMove e dx dy)
  | .arrow a => .arrow (arrowMove a dx dy)
  | .pen p => .pen (penMove p dx dy)
  | .text t => .text (textMove t dx dy)

/-- The corner `onDrag` logic shared verbatim by `rectHandler.ts` and
`ellipseHandler.ts` (control points "tl"/"tr"/"bl"/"br"): the dragged corner
writes into whichever of `x1`/`x2` (resp. `y1`/`y2`) currently holds that
side, decided by `isX1Left`/`isY1Top`.  `movesLeft`/`movesTop` select which
corner this is (left or right column, top or bottom row). -/
def cornerOnDrag (x1 y1 x2 y2 : ℚ) (movesLeft movesTop : Bool)
    (newPos : Point2D) : ℚ × ℚ × ℚ × ℚ :=
  let isX1Left := x1 ≤ x2
  let isY1Top := y1 ≤ y2
  let nx1 := if isX1Left then (if movesLeft then newPos.x else x1)
             else (if movesLeft then x1 else newPos.x)
  let nx2 := if isX1Left then (if movesLeft then x2 else newPos.x)
             else (if movesLeft then newPos.x else x2)
  let ny1 := if isY1Top then (if movesTop then newPos.y else y1)
             else (if movesTop then y1 else newPos.y)
  let ny2 := if isY1Top then (if movesTop then y2 else newPos.y)
             else (if movesTop then newPos.y else y2)
  (nx1, ny1, nx2, ny2)

/-- Per-shape control-point drag (`onDrag` of each handler's
`getControlPoints()`), dispatched by `updateShapeFromControl` in
`useFabricCanvas.ts`.  Rect/ellipse have the four corner handles; arrow has
"start"/"end" endpoint handles; pen has "start"/"end" whole-stroke translate
handles; text exposes no custom control points.  An id that does not match a
definition leaves the data unchanged (the controller only invokes drags for
existing definitions). -/
def dispatchOnDrag (d : ShapeData) (cpId : String) (newPos : Point2D) :
    ShapeData :=
  match d with
  | .rect r =>
    let corner := fun ml mt =>
      let (nx1, ny1, nx2, ny2) := cornerOnDrag r.x1 r.y1 r.x2 r.y2 ml mt newPos
      ShapeData.rect { r with x1 := nx1, y1 := ny1, x2 := nx2, y2 := ny2 }
    if cpId = "tl" then corner true true
    else if cpId = "tr" then corner false true
    else if cpId = "bl" then corner true false
    else if cpId = "br" then corner false false
    else .rect r
  | .ellipse e =>
    let corner := fun ml mt =>
      let (nx1, ny1, nx2, ny2) := cornerOnDrag e.x1 e.y1 e.x2 e.y2 ml mt newPos
      ShapeData.ellipse { e with x1 := nx1, y1 := ny1, x2 := nx2, y2 := ny2 }
    if cpId = "tl" then corner true true
    else if cpId = "tr" then corner false true
    else if cpId = "bl" then corner true false
    else if cpId = "br" then corner false false
    else .ellipse e
  | .arrow a =>
    if cpId = "start" then .arrow { a with x1 := newPos.x, y1 := newPos.y }
    else if cpId = "end" then .arrow { a with x2 := newPos.x, y2 := newPos.y }
    else .arrow a
  | .pen p =>
    if p.points.isEmpty then .pen p
    else if cpId = "start" then
      let first := p.points.headD ⟨0, 0⟩
      .pen (penMove p (newPos.x - first.x) (newPos.y - first.y))
    else if cpId = "end" then
      let last := p.points.getLastD ⟨0, 0⟩
      .pen (penMove p (newPos.x - last.x) (newPos.y - last.y))
    else .pen p
  | .text t => .text t

/-!
## Drawing-surface history (`useFabricCanvas.ts` lines 59–84, 767–843)

A canvas object is a persistent shape or a control-point decoration
(`isControlPoint`).  A history entry serializes the canvas object list with
control points filtered out; deserialization is modelled as the identity on
that list (JSON round-trips deep-equal data).
-/

/-- A canvas object: the `isControlPoint` marker plus its shape payload,
matching the properties `saveHistory` serializes (`toObject(["shapeData",
"isControlPoint"])`). -/
structure CanvasObj where
  isControlPoint : Bool
  shapeData : ShapeData
deriving Repr, DecidableEq

/-- The drawing-surface state owned by `useFabricCanvas`: the canvas object
list, the history log of serialized snapshots, and the cursor
`historyIndex` (initialized to `-1`). -/
structure FabricState where
  objects : List CanvasObj
  history : List (List CanvasObj)
  historyIndex : ℤ
deriving Repr, DecidableEq

/-- JavaScript `array.slice(0, e)`: a negative end counts from the end of
the array. -/
def jsSliceTo (l : List (List CanvasObj)) (e : ℤ) : List (List CanvasObj) :=
  if e < 0 then l.take ((l.length : ℤ) + e).toNat else l.take e.toNat

/-- `state.objects.filter(obj => !obj.isControlPoint)` in `saveHistory`:
the serialized snapshot holds exactly the persistent (non-control-point)
objects. -/
def snapshotObjects (objs : List CanvasObj) : List CanvasObj :=
  objs.filter (fun o => !o.isControlPoint)

/-- `saveHistory` (`useFabricCanvas.ts` lines 767–787): truncate the log
after the cursor if undos happened, append the filtered snapshot, and set
the cursor to the last entry. -/
def saveHistory (s : FabricState) : FabricState :=
  let hist :=
    if s.historyIndex < (s.history.length : ℤ) - 1 then
      jsSliceTo s.history (s.historyIndex + 1)
    else s.history
  let hist2 := hist ++ [snapshotObjects s.objects]
  { s with history := hist2, historyIndex := (hist2.length : ℤ) - 1 }

/-- `undo` (`useFabricCanvas.ts` lines 792–804): no-op when the cursor is at
or below 0; otherwise step the cursor back and replace the canvas objects
with the snapshot at the new cursor (`loadFromJSON`). -/
def undo (s : FabricState) : FabricState :=
  if s.historyIndex ≤ 0 then s
  else
    let i := s.historyIndex - 1
    { s with historyIndex := i, objects := s.history.getD i.toNat [] }

/-- `redo` (`useFabricCanvas.ts` lines 809–821): no-op when the cursor is at
or past the last entry; otherwise step forward and load that snapshot. -/
def redo (s : FabricState) : FabricState :=
  if s.historyIndex ≥ (s.history.length : ℤ) - 1 then s
  else
    let i := s.historyIndex + 1
    { s with historyIndex := i, objects := s.history.getD i.toNat [] }

/-- `resetHistory` (`useFabricCanvas.ts` lines 826–829). -/
def resetHistory (s : FabricState) : FabricState :=
  { s with history := [], historyIndex := -1 }

/-- `canUndo` (`useFabricCanvas.ts` lines 834–836). -/
def canUndo (s : FabricState) : Bool :=
  0 < s.historyIndex

/-- `canRedo` (`useFabricCanvas.ts` lines 841–843). -/
def canRedo (s : FabricState) : Bool :=
  s.historyIndex < (s.history.length : ℤ) - 1

/-- A completed user interaction on the surface: drawing a new shape
(`handleMouseUp`), a whole-shape move end (`object:modified`), or a
control-point resize end — each followed by one `saveHistory` push. -/
inductive CanvasOp where
  | draw (shape : ShapeData)
  | moveShape (idx : ℕ) (dx dy : ℚ)
  | resizeShape (idx : ℕ) (cpId : String) (newPos : Point2D)
deriving Repr, DecidableEq

/-- The object-list mutation performed by one completed interaction. -/
def applyOp (op : CanvasOp) (objs : List CanvasObj) : List CanvasObj :=
  match op with
  | .draw sh => objs ++ [⟨false, sh⟩]
  | .moveShape idx dx dy =>
    objs.modify (fun o => { o with shapeData := dispatchMove o.shapeData dx dy }) idx
  | .resizeShape idx cpId p =>
    objs.modify (fun o => { o with shapeData := dispatchOnDrag o.shapeData cpId p }) idx

/-- One completed interaction: mutate the object list, then push history. -/
def completeOp (s : FabricState) (op : CanvasOp) : FabricState :=
  saveHistory { s with objects := applyOp op s.objects }

/-- Run a sequence of completed interactions. -/
def runOps (s : FabricState) (ops : List CanvasOp) : FabricState :=
  ops.foldl completeOp s

/-- A freshly (re)initialized editing session: empty history and cursor -1
(`resetHistory`), with the baseline entry pushed by the first
`saveHistory`. -/
def initSession (objs : List CanvasObj) : FabricState :=
  saveHistory ⟨objs, [], -1⟩

/-!
## Region selection (capture overlay)

Both capture-window variants in the repository share the same resize-branch
code in `handleMouseMove` and differ only in the sub-10-px policy of
`handleMouseUp`.
-/

/-- The selection rectangle `{x, y, w, h}` in capture-surface pixels. -/
structure SelBox where
  x : ℚ
  y : ℚ
  w : ℚ
  h : ℚ
deriving Repr, DecidableEq

/-- The capture bounds `{w, h}`. -/
structure SelBounds where
  w : ℚ
  h : ℚ
deriving Repr, DecidableEq

/-- The eight selection resize handles. -/
inductive SelHandle where
  | nw | ne | sw | se | n | s | w | e
deriving Repr, DecidableEq

/-- The `switch (resizeHandle.value)` block of the resize branch of
`handleMouseMove`: move the grabbed edge(s) by the drag delta, leaving the
opposite edge(s) fixed.  Width/height may come out negative here. -/
def applyHandleDrag (b : SelBox) (handle : SelHandle) (dx dy : ℚ) : SelBox :=
  match handle with
  | .nw => ⟨b.x + dx, b.y + dy, b.w - dx, b.h - dy⟩
  | .ne => ⟨b.x, b.y + dy, b.w + dx, b.h - dy⟩
  | .sw => ⟨b.x + dx, b.y, b.w - dx, b.h + dy⟩
  | .se => ⟨b.x, b.y, b.w + dx, b.h + dy⟩
  | .n => ⟨b.x, b.y + dy, b.w, b.h - dy⟩
  | .s => ⟨b.x, b.y, b.w, b.h + dy⟩
  | .w => ⟨b.x + dx, b.y, b.w - dx, b.h⟩
  | .e => ⟨b.x, b.y, b.w + dx, b.h⟩

/-- The normalization step of the resize branch: a negative width or height
flips the origin to the other edge and negates the extent
(`if (newW < 0) ... if (newH < 0) ...`). -/
def normalizeBox (b : SelBox) : SelBox :=
  ⟨if b.w < 0 then b.x + b.w else b.x,
   if b.h < 0 then b.y + b.h else b.y,
   if b.w < 0 then -b.w else b.w,
   if b.h < 0 then -b.h else b.h⟩

/-- The clamping step of the resize branch: clamp the origin to ≥ 0 and the
extents so the box ends inside the capture bounds. -/
def clampBox (b : SelBox) (bounds : SelBounds) : SelBox :=
  let nx := max 0 b.x
  let ny := max 0 b.y
  ⟨nx, ny, min (bounds.w - nx) b.w, min (bounds.h - ny) b.h⟩

/-- One full resize step of `handleMouseMove` (lines 889–956 of the canvas
variant; lines 2244–2311 of the fabric variant are identical): edge update,
negative-extent normalization, then bounds clamping. -/
def resizeSelectionStep (start : SelBox) (handle : SelHandle) (dx dy : ℚ)
    (bounds : SelBounds) : SelBox :=
  clampBox (normalizeBox (applyHandleDrag start handle dx dy)) bounds

/-- The selecting branch of `handleMouseUp` in the canvas variant (lines
1098–1107): a drag ending below the 10-px minimum clears the selection. -/
def mouseUpSelectionCanvasVariant (sel : Option SelBox) : Option SelBox :=
  match sel with
  | none => none
  | some b => if b.w < 10 ∨ b.h < 10 then none else some b

/-- The selecting branch of `handleMouseUp` in the fabric variant (lines
2314–2325): a drag ending below the 10-px minimum is promoted to a
full-bounds selection. -/
def mouseUpSelectionFabricVariant (sel : Option SelBox) (bounds : SelBounds) :
    Option SelBox :=
  match sel with
  | none => none
  | some b =>
    if b.w < 10 ∨ b.h < 10 then some ⟨0, 0, bounds.w, bounds.h⟩ else some b

/-!
## Export (`toDataURL`, `useFabricCanvas.ts` lines 848–869)
-/

/-- A control-point decoration (`Circle` with `isControlPoint`), with the
state `toDataURL` touches: identity/position plus the `visible` flag. -/
structure ControlPointObj where
  pointId : String
  left : ℚ
  top : ℚ
  visible : Bool
deriving Repr, DecidableEq

/-- The surface state seen by `toDataURL`: persistent canvas objects and the
current control-point decorations. -/
structure ExportState where
  objects : List CanvasObj
  controls : List ControlPointObj
deriving Repr, DecidableEq

/-- The arguments handed to the underlying rasterizer
(`canvas.toDataURL({format, quality, multiplier})`), together with the
surface state at the moment of rasterization. -/
structure RasterizeCall where
  format : String
  quality : ℚ
  multiplier : ℚ
  objects : List CanvasObj
  controls : List ControlPointObj
deriving Repr, DecidableEq

/-- `toDataURL` (`useFabricCanvas.ts` lines 848–869): set every control
point's `visible` to false, rasterize with `multiplier: 1`, then set every
control point's `visible` to true.  Returns the rasterizer call and the
state left behind. -/
def toDataURL (s : ExportState) (format : String) (quality : ℚ) :
    RasterizeCall × ExportState :=
  let hidden := s.controls.map (fun c => { c with visible := false })
  let call : RasterizeCall := ⟨format, quality, 1, s.objects, hidden⟩
  let restored := hidden.map (fun c => { c with visible := true })
  (call, ⟨s.objects, restored⟩)

/-!
## Search highlight (`HighlightText.vue` lines 11–40)
-/

/-- One rendered fragment of the highlighted text. -/
structure HighlightPart where
  text : String
  highlight : Bool
deriving Repr, DecidableEq

/-- A compiled regular expression, modelled by its observable behaviour in
this component: `String.prototype.split` with capture groups kept. -/
structure CompiledRegex where
  split : String → List String

/-- The regex-special characters escaped by the component
(`/[.*+?^$\x7b\x7d()|[\]\\]/g`). -/
def regexSpecialChars : List Char :=
  ['.', '*', '+', '?', '^', '$', '\x7b', '\x7d', '(', ')', '|', '[', ']', '\\']

/-- `query.replace(/[.*+?^$\x7b\x7d()|[\]\\]/g, "\\$&")`: prefix each
regex-special character with a backslash. -/
def escapeRegexQuery (q : String) : String :=
  String.mk (q.data.flatMap (fun c =>
    if c ∈ regexSpecialChars then ['\\', c] else [c]))

/-- The pattern string handed to `new RegExp` by the `parts` computed:
the (possibly escaped) query wrapped in a capture group. -/
def highlightPattern (isRegex : Bool) (query : String) : String :=
  if isRegex then "(" ++ query ++ ")"
  else "(" ++ escapeRegexQuery query ++ ")"

/-- The flags handed to `new RegExp`. -/
def highlightFlags (isCaseSensitive : Bool) : String :=
  if isCaseSensitive then "g" else "gi"

/-- The `parts` computed of `HighlightText.vue`: empty query renders the
whole text unhighlighted; otherwise compile the pattern (compilation may
fail, modelled by `Option` — the `catch` branch), split the text keeping
capture groups, mark odd-indexed nonempty fragments highlighted, and drop
empty fragments.  A failed compilation falls back to the whole text as one
unhighlighted part. -/
def highlightParts (text query : String) (isRegex isCaseSensitive : Bool)
    (compile : String → String → Option CompiledRegex) : List HighlightPart :=
  if query = "" then [⟨text, false⟩]
  else
    match compile (highlightPattern isRegex query)
        (highlightFlags isCaseSensitive) with
    | none => [⟨text, false⟩]
    | some regex =>
      ((regex.split text).enum.map (fun p =>
        HighlightPart.mk p.2 (p.1 % 2 = 1 ∧ p.2.length > 0 : Bool))).filter
        (fun p => p.text.length > 0)

/-!
## Arrow geometry (`buildArrowPathData`, `arrowHandler.ts` lines 19–75)

The source computes the segment direction through `atan2`/`cos`/`sin`; for a
segment of length `len > 0` these satisfy `cos angle = (x2-x1)/len` and
`sin angle = (y2-y1)/len`, and `cos(angle+π/2) = -sin angle`,
`sin(angle+π/2) = cos angle`.  The embedding takes `len` as an explicit
argument constrained by `len² = (x2-x1)² + (y2-y1)²` in the theorems and
uses those exact identities, keeping every definition inside ℚ.
-/

/-- `Math.max(0.5, width / 3)`: the stroke-width-derived scale factor. -/
def arrowScale (width : ℚ) : ℚ := max (1 / 2) (width / 3)

/-- `shaftWidth = 2 * scale`: half-width of the arrow shaft. -/
def arrowShaftWidth (width : ℚ) : ℚ := 2 * arrowScale width

/-- `headLength = Math.min(30 * scale, length * 0.4)`. -/
def arrowHeadLength (width len : ℚ) : ℚ :=
  min (30 * arrowScale width) (len * (2 / 5))

/-- `headWidth = 10 * scale`: half-width of the arrow head. -/
def arrowHeadWidth (width : ℚ) : ℚ := 10 * arrowScale width

/-- The neck point `(neckX, neckY)`: the tip pulled back along the segment
direction by the head length. -/
def arrowNeck (x1 y1 x2 y2 width len : ℚ) : Point2D :=
  let cosA := (x2 - x1) / len
  let sinA := (y2 - y1) / len
  let hl := arrowHeadLength width len
  ⟨x2 - hl * cosA, y2 - hl * sinA⟩

/-- The seven vertices of the closed arrow polygon emitted by
`buildArrowPathData` (`M`/`L` commands before the closing `Z`), in source
order: tail corner, neck corner, head outer corner, tip, head outer corner,
neck corner, tail corner.  `cosPerp`/`sinPerp` of the source are
`cos(angle+π/2) = -sin angle` and `sin(angle+π/2) = cos angle`. -/
def buildArrowVertices (x1 y1 x2 y2 width len : ℚ) : List Point2D :=
  let cosA := (x2 - x1) / len
  let sinA := (y2 - y1) / len
  let shaftWidth := arrowShaftWidth width
  let headWidth := arrowHeadWidth width
  let neck := arrowNeck x1 y1 x2 y2 width len
  let cosPerp := -sinA
  let sinPerp := cosA
  [⟨x1 + shaftWidth * cosPerp, y1 + shaftWidth * sinPerp⟩,
   ⟨neck.x + shaftWidth * cosPerp, neck.y + shaftWidth * sinPerp⟩,
   ⟨neck.x + headWidth * cosPerp, neck.y + headWidth * sinPerp⟩,
   ⟨x2, y2⟩,
   ⟨neck.x - headWidth * cosPerp, neck.y - headWidth * sinPerp⟩,
   ⟨neck.x - shaftWidth * cosPerp, neck.y - shaftWidth * sinPerp⟩,
   ⟨x1 - shaftWidth * cosPerp, y1 - shaftWidth * sinPerp⟩]

/-- Squared Euclidean distance between two points. -/
def sqDist (p q : Point2D) : ℚ :=
  (p.x - q.x) ^ 2 + (p.y - q.y) ^ 2

/-!
# Theorems
-/

/-- C1 (counterexample): the claim says ellipse `createData` rejects exactly
when an extent `|x2-x1|` or `|y2-y1|` is below 2 px.  For the drag from
(0,0) to (3,3) both extents are 3 ≥ 2, yet the code rejects (it compares the
half-extents `rx = ry = 3/2` against 2). -/
theorem ellipse_two_px_claim_false :
    dispatchCreateData .ellipse ⟨0, 0⟩ ⟨3, 3⟩ (some []) = none ∧
    ¬(|(3 : ℚ) - 0| < 2 ∨ |(3 : ℚ) - 0| < 2) := by
  constructor
  · show ellipseCreateData ⟨0, 0⟩ ⟨3, 3⟩ = none
    norm_num [ellipseCreateData]
  · norm_num

/-- C1 (amended): the dispatched `createData` rejects exactly per type —
rect iff either extent is below 2 px; ellipse iff either half-extent
(extent/2) is below 2 px, i.e. either extent below 4 px; arrow iff both
extents are below 5 px; pen iff fewer than 2 accumulated points; text never,
returning the zero-size placeholder with empty content anchored at the start
point. -/
theorem createData_rejection_rule (t : ShapeType) (start current : Point2D)
    (pts : List Point2D) :
    (dispatchCreateData t start current (some pts) = none ↔
      match t with
      | .rect => |current.x - start.x| < 2 ∨ |current.y - start.y| < 2
      | .ellipse =>
        |current.x - start.x| / 2 < 2 ∨ |current.y - start.y| / 2 < 2
      | .arrow => |current.x - start.x| < 5 ∧ |current.y - start.y| < 5
      | .pen => pts.length < 2
      | .text => False) ∧
    dispatchCreateData .text start current (some pts) =
      some (.text ⟨.text, start.x, start.y, "", 20⟩) := by
  refine ⟨?_, rfl⟩
  cases t with
  | rect =>
    simp only [dispatchCreateData, rectCreateData]
    split_ifs with h <;> simp [h]
  | ellipse =>
    simp only [dispatchCreateData, ellipseCreateData]
    split_ifs with h <;> simp [h]
  | arrow =>
    simp only [dispatchCreateData, arrowCreateData]
    split_ifs with h <;> simp [h]
  | pen =>
    simp only [dispatchCreateData, penCreateData, Option.getD_some]
    split_ifs with h <;> simp [h]
  | text =>
    simp [dispatchCreateData, textCreateData]

/-- `getD` at the index of the appended element. -/
lemma getD_append_singleton {α : Type} (l : List α) (a d : α) :
    (l ++ [a]).getD l.length d = a := by
  induction l with
  | nil => rfl
  | cons x xs ih =>
    simp only [List.cons_append, List.length_cons, List.getD_cons_succ]
    exact ih

/-- The well-formedness the history code maintains: the cursor sits at the
last entry, at least one entry exists, and the last entry is the snapshot of
the current objects. -/
def historyWellFormed (s : FabricState) : Prop :=
  s.historyIndex = (s.history.length : ℤ) - 1 ∧
  1 ≤ s.history.length ∧
  s.history.getD (s.history.length - 1) [] = snapshotObjects s.objects

/-- Any `saveHistory` result is well-formed. -/
lemma saveHistory_wellFormed (s : FabricState) :
    historyWellFormed (saveHistory s) := by
  unfold historyWellFormed saveHistory
  refine ⟨by simp, by simp, ?_⟩
  simp only [List.length_append, List.length_singleton, Nat.add_sub_cancel]
  exact getD_append_singleton _ _ _

/-- Any sequence of completed interactions starting from a `saveHistory`
result stays well-formed. -/
lemma runOps_wellFormed (ops : List CanvasOp) :
    ∀ s : FabricState, historyWellFormed (runOps (saveHistory s) ops) := by
  induction ops with
  | nil => intro s; exact saveHistory_wellFormed s
  | cons op ops ih =>
    intro s
    show historyWellFormed (runOps (completeOp (saveHistory s) op) ops)
    exact ih _

/-- C3: every `saveHistory` call discards the entries after the cursor,
appends exactly the one snapshot entry, and leaves the cursor at the last
entry (given the cursor invariant `historyIndex ≥ -1` that holds from
initialization on). -/
theorem saveHistory_appends_one_entry (s : FabricState)
    (h : -1 ≤ s.historyIndex) :
    (saveHistory s).history =
      s.history.take (s.historyIndex + 1).toNat ++
        [snapshotObjects s.objects] ∧
    (saveHistory s).historyIndex = ((saveHistory s).history.length : ℤ) - 1 ∧
    (saveHistory s).history.length =
      min (s.historyIndex + 1).toNat s.history.length + 1 := by
  refine ⟨?_, rfl, ?_⟩
  · unfold saveHistory
    dsimp only
    split_ifs with hlt
    · simp only [jsSliceTo, if_neg (show ¬s.historyIndex + 1 < 0 by omega)]
    · rw [List.take_of_length_le (by omega)]
  · unfold saveHistory
    dsimp only
    split_ifs with hlt
    · simp only [jsSliceTo, if_neg (show ¬s.historyIndex + 1 < 0 by omega),
        List.length_append, List.length_take, List.length_singleton]
    · simp only [List.length_append, List.length_singleton]
      omega

/-- Witness for C3 at a concrete state. -/
theorem saveHistory_appends_one_entry_witness :
    -1 ≤ (FabricState.mk [⟨false, .text ⟨.text, 1, 2, "a", 20⟩⟩] [[], []] 0).historyIndex ∧
    ((saveHistory (FabricState.mk [⟨false, .text ⟨.text, 1, 2, "a", 20⟩⟩] [[], []] 0)).history =
      (FabricState.mk [⟨false, .text ⟨.text, 1, 2, "a", 20⟩⟩] [[], []] 0).history.take
        ((FabricState.mk [⟨false, .text ⟨.text, 1, 2, "a", 20⟩⟩] [[], []] 0).historyIndex + 1).toNat ++
        [snapshotObjects (FabricState.mk [⟨false, .text ⟨.text, 1, 2, "a", 20⟩⟩] [[], []] 0).objects] ∧
     (saveHistory (FabricState.mk [⟨false, .text ⟨.text, 1, 2, "a", 20⟩⟩] [[], []] 0)).historyIndex =
      ((saveHistory (FabricState.mk [⟨false, .text ⟨.text, 1, 2, "a", 20⟩⟩] [[], []] 0)).history.length : ℤ) - 1 ∧
     (saveHistory (FabricState.mk [⟨false, .text ⟨.text, 1, 2, "a", 20⟩⟩] [[], []] 0)).history.length =
      min ((FabricState.mk [⟨false, .text ⟨.text, 1, 2, "a", 20⟩⟩] [[], []] 0).historyIndex + 1).toNat
        (FabricState.mk [⟨false, .text ⟨.text, 1, 2, "a", 20⟩⟩] [[], []] 0).history.length + 1) :=
  ⟨by norm_num, saveHistory_appends_one_entry _ (by norm_num)⟩

/-- C2: after any sequence of at most 20 completed draw/move/resize
interactions from a fresh session, if the cursor is strictly positive then
undo immediately followed by redo restores the canvas object list to the
persistent (snapshot) object list held before the undo. -/
theorem undo_redo_restores_objects (objs : List CanvasObj)
    (ops : List CanvasOp) (_hlen : ops.length ≤ 20)
    (hpos : 0 < (runOps (initSession objs) ops).historyIndex) :
    (redo (undo (runOps (initSession objs) ops))).objects =
      snapshotObjects (runOps (initSession objs) ops).objects := by
  obtain ⟨hidx, hlen1, hlast⟩ :
      historyWellFormed (runOps (initSession objs) ops) :=
    runOps_wellFormed ops ⟨objs, [], -1⟩
  set s := runOps (initSession objs) ops with hs
  have hu : undo s =
      { s with historyIndex := s.historyIndex - 1,
               objects := s.history.getD (s.historyIndex - 1).toNat [] } := by
    rw [undo, if_neg (by omega)]
  rw [hu, redo,
    if_neg (show ¬s.historyIndex - 1 ≥ (s.history.length : ℤ) - 1 by omega)]
  show s.history.getD (s.historyIndex - 1 + 1).toNat [] =
    snapshotObjects s.objects
  have h1 : s.historyIndex - 1 + 1 = s.historyIndex := by ring
  rw [h1, show s.historyIndex.toNat = s.history.length - 1 by omega]
  exact hlast

/-- Witness for C2: one drawn rectangle on a fresh session. -/
theorem undo_redo_restores_objects_witness :
    ([CanvasOp.draw (.rect ⟨.rect, 0, 0, 20, 20⟩)].length ≤ 20) ∧
    0 < (runOps (initSession [])
      [CanvasOp.draw (.rect ⟨.rect, 0, 0, 20, 20⟩)]).historyIndex ∧
    (redo (undo (runOps (initSession [])
        [CanvasOp.draw (.rect ⟨.rect, 0, 0, 20, 20⟩)]))).objects =
      snapshotObjects (runOps (initSession [])
        [CanvasOp.draw (.rect ⟨.rect, 0, 0, 20, 20⟩)]).objects :=
  ⟨by norm_num, by decide,
    undo_redo_restores_objects [] _ (by norm_num) (by decide)⟩

/-- C10: from the first `saveHistory` after (re)initialization on, the
cursor invariant `0 ≤ historyIndex ≤ historyLength - 1` holds and is
preserved by `undo`, `redo` and `saveHistory`; `undo` is a no-op when the
cursor is ≤ 0, `redo` is a no-op when the cursor is at the last entry, and
`saveHistory` always leaves the cursor at the last entry. -/
theorem history_cursor_invariant (s : FabricState) (objs : List CanvasObj)
    (h : 0 ≤ s.historyIndex ∧
      s.historyIndex ≤ (s.history.length : ℤ) - 1) :
    (0 ≤ (initSession objs).historyIndex ∧
      (initSession objs).historyIndex =
        ((initSession objs).history.length : ℤ) - 1) ∧
    (0 ≤ (undo s).historyIndex ∧
      (undo s).historyIndex ≤ ((undo s).history.length : ℤ) - 1) ∧
    (0 ≤ (redo s).historyIndex ∧
      (redo s).historyIndex ≤ ((redo s).history.length : ℤ) - 1) ∧
    (0 ≤ (saveHistory s).historyIndex ∧
      (saveHistory s).historyIndex ≤
        ((saveHistory s).history.length : ℤ) - 1) ∧
    (s.historyIndex ≤ 0 → undo s = s) ∧
    ((s.history.length : ℤ) - 1 ≤ s.historyIndex → redo s = s) ∧
    (saveHistory s).historyIndex =
      ((saveHistory s).history.length : ℤ) - 1 := by
  obtain ⟨h0, h1⟩ := h
  refine ⟨?_, ?_, ?_, ?_, ?_, ?_, rfl⟩
  · have w : historyWellFormed (initSession objs) :=
      saveHistory_wellFormed ⟨objs, [], -1⟩
    obtain ⟨w1, w2, -⟩ := w
    exact ⟨by omega, w1⟩
  · unfold undo
    split_ifs with hc
    · exact ⟨h0, h1⟩
    · exact ⟨show (0 : ℤ) ≤ s.historyIndex - 1 by omega,
        show s.historyIndex - 1 ≤ (s.history.length : ℤ) - 1 by omega⟩
  · unfold redo
    split_ifs with hc
    · exact ⟨h0, h1⟩
    · exact ⟨show (0 : ℤ) ≤ s.historyIndex + 1 by omega,
        show s.historyIndex + 1 ≤ (s.history.length : ℤ) - 1 by omega⟩
  · obtain ⟨w1, w2, -⟩ := saveHistory_wellFormed s
    exact ⟨by omega, by omega⟩
  · intro hc
    rw [undo, if_pos hc]
  · intro hc
    rw [redo, if_pos (by omega)]

/-- Witness for C10 at a concrete well-formed state. -/
theorem history_cursor_invariant_witness :
    (0 ≤ (FabricState.mk [] [[], []] 1).historyIndex ∧
      (FabricState.mk [] [[], []] 1).historyIndex ≤
        ((FabricState.mk [] [[], []] 1).history.length : ℤ) - 1) ∧
    ((0 ≤ (initSession []).historyIndex ∧
      (initSession []).historyIndex =
        ((initSession []).history.length : ℤ) - 1) ∧
    (0 ≤ (undo (FabricState.mk [] [[], []] 1)).historyIndex ∧
      (undo (FabricState.mk [] [[], []] 1)).historyIndex ≤
        ((undo (FabricState.mk [] [[], []] 1)).history.length : ℤ) - 1) ∧
    (0 ≤ (redo (FabricState.mk [] [[], []] 1)).historyIndex ∧
      (redo (FabricState.mk [] [[], []] 1)).historyIndex ≤
        ((redo (FabricState.mk [] [[], []] 1)).history.length : ℤ) - 1) ∧
    (0 ≤ (saveHistory (FabricState.mk [] [[], []] 1)).historyIndex ∧
      (saveHistory (FabricState.mk [] [[], []] 1)).historyIndex ≤
        ((saveHistory (FabricState.mk [] [[], []] 1)).history.length : ℤ) - 1) ∧
    ((FabricState.mk [] [[], []] 1).historyIndex ≤ 0 →
      undo (FabricState.mk [] [[], []] 1) = FabricState.mk [] [[], []] 1) ∧
    (((FabricState.mk [] [[], []] 1).history.length : ℤ) - 1 ≤
        (FabricState.mk [] [[], []] 1).historyIndex →
      redo (FabricState.mk [] [[], []] 1) = FabricState.mk [] [[], []] 1) ∧
    (saveHistory (FabricState.mk [] [[], []] 1)).historyIndex =
      ((saveHistory (FabricState.mk [] [[], []] 1)).history.length : ℤ) - 1) :=
  ⟨by norm_num, history_cursor_invariant _ [] (by norm_num)⟩

/-- The normalization step yields non-negative extents and moves the origin
to the smaller of the two edge positions. -/
lemma normalizeBox_props (r : SelBox) :
    0 ≤ (normalizeBox r).w ∧ 0 ≤ (normalizeBox r).h ∧
    (normalizeBox r).x = min r.x (r.x + r.w) ∧
    (normalizeBox r).y = min r.y (r.y + r.h) := by
  unfold normalizeBox
  dsimp only
  split_ifs with h1 h2 h2
  · exact ⟨by linarith, by linarith, (min_eq_right (by linarith)).symm,
      (min_eq_right (by linarith)).symm⟩
  · exact ⟨by linarith, by linarith, (min_eq_right (by linarith)).symm,
      (min_eq_left (by linarith)).symm⟩
  · exact ⟨by linarith, by linarith, (min_eq_left (by linarith)).symm,
      (min_eq_right (by linarith)).symm⟩
  · exact ⟨by linarith, by linarith, (min_eq_left (by linarith)).symm,
      (min_eq_left (by linarith)).symm⟩

/-- Normalize-then-clamp keeps the box inside the bounds with non-negative
extents, provided some horizontal edge and some vertical edge of the raw
box are still inside the bounds (true for every handle, whose opposite
edges stay fixed). -/
lemma normalize_clamp_within (r : SelBox) (bounds : SelBounds)
    (hx : r.x ≤ bounds.w ∨ r.x + r.w ≤ bounds.w)
    (hy : r.y ≤ bounds.h ∨ r.y + r.h ≤ bounds.h)
    (hbw : 0 ≤ bounds.w) (hbh : 0 ≤ bounds.h) :
    0 ≤ (clampBox (normalizeBox r) bounds).x ∧
    0 ≤ (clampBox (normalizeBox r) bounds).y ∧
    0 ≤ (clampBox (normalizeBox r) bounds).w ∧
    0 ≤ (clampBox (normalizeBox r) bounds).h ∧
    (clampBox (normalizeBox r) bounds).x +
      (clampBox (normalizeBox r) bounds).w ≤ bounds.w ∧
    (clampBox (normalizeBox r) bounds).y +
      (clampBox (normalizeBox r) bounds).h ≤ bounds.h := by
  obtain ⟨hnw, hnh, hnx, hny⟩ := normalizeBox_props r
  set n := normalizeBox r with hn
  have hnxb : n.x ≤ bounds.w := by
    rw [hnx]
    rcases hx with h | h
    · exact min_le_of_left_le h
    · exact min_le_of_right_le h
  have hnyb : n.y ≤ bounds.h := by
    rw [hny]
    rcases hy with h | h
    · exact min_le_of_left_le h
    · exact min_le_of_right_le h
  have hmx : max 0 n.x ≤ bounds.w := max_le hbw hnxb
  have hmy : max 0 n.y ≤ bounds.h := max_le hbh hnyb
  unfold clampBox
  dsimp only
  refine ⟨le_max_left _ _, le_max_left _ _, le_min (by linarith) hnw,
    le_min (by linarith) hnh, ?_, ?_⟩
  · have := min_le_left (bounds.w - max 0 n.x) n.w
    linarith
  · have := min_le_left (bounds.h - max 0 n.y) n.h
    linarith

/-- C4: from a selection box inside the capture bounds, one resize step for
any of the 8 handles and any drag displacement yields a box inside
`[0, bounds.w] × [0, bounds.h]` with non-negative extents; the intermediate
normalization flips the origin on a negative extent; and in particular, the
box (100,100,50,50) with the nw handle dragged from (100,100) to
(-500,-500) yields x = 0 and y = 0. -/
theorem resize_selection_within_bounds (b : SelBox) (handle : SelHandle)
    (dx dy : ℚ) (bounds : SelBounds)
    (hx0 : 0 ≤ b.x) (hy0 : 0 ≤ b.y) (hw0 : 0 ≤ b.w) (hh0 : 0 ≤ b.h)
    (hxw : b.x + b.w ≤ bounds.w) (hyh : b.y + b.h ≤ bounds.h) :
    (0 ≤ (resizeSelectionStep b handle dx dy bounds).x ∧
     0 ≤ (resizeSelectionStep b handle dx dy bounds).y ∧
     0 ≤ (resizeSelectionStep b handle dx dy bounds).w ∧
     0 ≤ (resizeSelectionStep b handle dx dy bounds).h ∧
     (resizeSelectionStep b handle dx dy bounds).x +
       (resizeSelectionStep b handle dx dy bounds).w ≤ bounds.w ∧
     (resizeSelectionStep b handle dx dy bounds).y +
       (resizeSelectionStep b handle dx dy bounds).h ≤ bounds.h) ∧
    (∀ c : SelBox, 0 ≤ (normalizeBox c).w ∧ 0 ≤ (normalizeBox c).h ∧
      (normalizeBox c).x = min c.x (c.x + c.w) ∧
      (normalizeBox c).y = min c.y (c.y + c.h)) ∧
    ((resizeSelectionStep ⟨100, 100, 50, 50⟩ .nw ((-500) - 100) ((-500) - 100)
        bounds).x = 0 ∧
     (resizeSelectionStep ⟨100, 100, 50, 50⟩ .nw ((-500) - 100) ((-500) - 100)
        bounds).y = 0) := by
  refine ⟨?_, fun c => normalizeBox_props c, ?_, ?_⟩
  · simp only [resizeSelectionStep]
    cases handle <;>
      exact normalize_clamp_within _ bounds
        (by first
          | exact Or.inl (by dsimp only [applyHandleDrag]; linarith)
          | exact Or.inr (by dsimp only [applyHandleDrag]; linarith))
        (by first
          | exact Or.inl (by dsimp only [applyHandleDrag]; linarith)
          | exact Or.inr (by dsimp only [applyHandleDrag]; linarith))
        (by linarith) (by linarith)
  · norm_num [resizeSelectionStep, applyHandleDrag, normalizeBox, clampBox]
  · norm_num [resizeSelectionStep, applyHandleDrag, normalizeBox, clampBox]

/-- Witness for C4 at a concrete box, handle, drag and bounds. -/
theorem resize_selection_within_bounds_witness :
    ((0 : ℚ) ≤ 10 ∧ (0 : ℚ) ≤ 10 ∧ (0 : ℚ) ≤ 20 ∧ (0 : ℚ) ≤ 20 ∧
      (10 : ℚ) + 20 ≤ 100 ∧ (10 : ℚ) + 20 ≤ 100) ∧
    (0 ≤ (resizeSelectionStep ⟨10, 10, 20, 20⟩ .se 5 5 ⟨100, 100⟩).x ∧
     0 ≤ (resizeSelectionStep ⟨10, 10, 20, 20⟩ .se 5 5 ⟨100, 100⟩).y ∧
     0 ≤ (resizeSelectionStep ⟨10, 10, 20, 20⟩ .se 5 5 ⟨100, 100⟩).w ∧
     0 ≤ (resizeSelectionStep ⟨10, 10, 20, 20⟩ .se 5 5 ⟨100, 100⟩).h ∧
     (resizeSelectionStep ⟨10, 10, 20, 20⟩ .se 5 5 ⟨100, 100⟩).x +
       (resizeSelectionStep ⟨10, 10, 20, 20⟩ .se 5 5 ⟨100, 100⟩).w ≤
         (SelBounds.mk 100 100).w ∧
     (resizeSelectionStep ⟨10, 10, 20, 20⟩ .se 5 5 ⟨100, 100⟩).y +
       (resizeSelectionStep ⟨10, 10, 20, 20⟩ .se 5 5 ⟨100, 100⟩).h ≤
         (SelBounds.mk 100 100).h) :=
  ⟨by norm_num,
    ((resize_selection_within_bounds ⟨10, 10, 20, 20⟩ .se 5 5 ⟨100, 100⟩
      (by norm_num) (by norm_num) (by norm_num) (by norm_num)
      (by norm_num) (by norm_num)).1)⟩

/-- C5: a selection drag released with either extent below 10 px never
leaves the small selection in place — the canvas variant clears the
selection, the fabric variant promotes it to the full capture bounds. -/
theorem small_selection_never_persists (b : SelBox) (bounds : SelBounds)
    (h : b.w < 10 ∨ b.h < 10) :
    mouseUpSelectionCanvasVariant (some b) = none ∧
    mouseUpSelectionFabricVariant (some b) bounds =
      some ⟨0, 0, bounds.w, bounds.h⟩ := by
  constructor
  · show (if b.w < 10 ∨ b.h < 10 then none else some b) = none
    rw [if_pos h]
  · show (if b.w < 10 ∨ b.h < 10 then some ⟨0, 0, bounds.w, bounds.h⟩
      else some b) = some ⟨0, 0, bounds.w, bounds.h⟩
    rw [if_pos h]

/-- Witness for C5 at a concrete small selection. -/
theorem small_selection_never_persists_witness :
    ((5 : ℚ) < 10 ∨ (8 : ℚ) < 10) ∧
    (mouseUpSelectionCanvasVariant (some ⟨3, 4, 5, 8⟩) = none ∧
     mouseUpSelectionFabricVariant (some ⟨3, 4, 5, 8⟩) ⟨640, 480⟩ =
       some ⟨0, 0, (SelBounds.mk 640 480).w, (SelBounds.mk 640 480).h⟩) :=
  ⟨by norm_num,
    small_selection_never_persists ⟨3, 4, 5, 8⟩ ⟨640, 480⟩ (by norm_num)⟩

/-- Mapping "set visible false" then "set visible true" over control points
that were all visible is the identity. -/
lemma hide_then_show_controls (l : List ControlPointObj)
    (h : ∀ c ∈ l, c.visible = true) :
    (l.map (fun c => { c with visible := false })).map
      (fun c => { c with visible := true }) = l := by
  induction l with
  | nil => rfl
  | cons c cs ih =>
    simp only [List.map_cons, List.cons.injEq]
    refine ⟨?_, ih (fun d hd => h d (List.mem_cons_of_mem _ hd))⟩
    have hc := h c (List.mem_cons_self _ _)
    cases c
    simp_all

/-- C8 (counterexample): the claim says `toDataURL` restores every control
point's `visible` flag for every canvas state; for a state with one hidden
control point, the code instead forces the flag to `true`, leaving the
state changed. -/
theorem export_restore_claim_false :
    (toDataURL ⟨[], [⟨"tl", 0, 0, false⟩]⟩ "png" 1).2.controls =
      [⟨"tl", 0, 0, true⟩] ∧
    (ExportState.mk [] [⟨"tl", 0, 0, false⟩]).controls =
      [⟨"tl", 0, 0, false⟩] ∧
    (toDataURL ⟨[], [⟨"tl", 0, 0, false⟩]⟩ "png" 1).2 ≠
      ⟨[], [⟨"tl", 0, 0, false⟩]⟩ := by
  refine ⟨rfl, rfl, ?_⟩
  intro hcontra
  have h1 : ([⟨"tl", 0, 0, true⟩] : List ControlPointObj) =
      [⟨"tl", 0, 0, false⟩] :=
    congrArg ExportState.controls hcontra
  simp at h1

/-- C8 (amended): `toDataURL` rasterizes with multiplier 1 at natural
resolution, with every control point's `visible` flag set to false at the
rasterizer call, and afterwards sets every control point's `visible` flag to
true — which restores the state exactly (control-point set and persistent
shapes unchanged) whenever every control point was visible beforehand, as
holds for every state the controller produces. -/
theorem export_hides_then_reshows_controls (s : ExportState)
    (format : String) (quality : ℚ)
    (h : ∀ c ∈ s.controls, c.visible = true) :
    (toDataURL s format quality).1.multiplier = 1 ∧
    (∀ c ∈ (toDataURL s format quality).1.controls, c.visible = false) ∧
    (toDataURL s format quality).1.objects = s.objects ∧
    (toDataURL s format quality).2 = s := by
  refine ⟨rfl, ?_, rfl, ?_⟩
  · intro c hc
    simp only [toDataURL, List.mem_map] at hc
    obtain ⟨a, -, ha⟩ := hc
    rw [← ha]
  · calc (toDataURL s format quality).2
        = ExportState.mk s.objects
            ((s.controls.map
              (fun c => ({ c with visible := false } : ControlPointObj))).map
              (fun c => ({ c with visible := true } : ControlPointObj))) := rfl
      _ = s := by rw [hide_then_show_controls s.controls h]

/-- Witness for C8 (amended) at a concrete state. -/
theorem export_hides_then_reshows_controls_witness :
    (∀ c ∈ (ExportState.mk [⟨false, .rect ⟨.rect, 0, 0, 9, 9⟩⟩]
        [⟨"tl", 0, 0, true⟩]).controls, c.visible = true) ∧
    ((toDataURL (ExportState.mk [⟨false, .rect ⟨.rect, 0, 0, 9, 9⟩⟩]
        [⟨"tl", 0, 0, true⟩]) "png" 1).1.multiplier = 1 ∧
     (∀ c ∈ (toDataURL (ExportState.mk [⟨false, .rect ⟨.rect, 0, 0, 9, 9⟩⟩]
        [⟨"tl", 0, 0, true⟩]) "png" 1).1.controls, c.visible = false) ∧
     (toDataURL (ExportState.mk [⟨false, .rect ⟨.rect, 0, 0, 9, 9⟩⟩]
        [⟨"tl", 0, 0, true⟩]) "png" 1).1.objects =
       (ExportState.mk [⟨false, .rect ⟨.rect, 0, 0, 9, 9⟩⟩]
        [⟨"tl", 0, 0, true⟩]).objects ∧
     (toDataURL (ExportState.mk [⟨false, .rect ⟨.rect, 0, 0, 9, 9⟩⟩]
        [⟨"tl", 0, 0, true⟩]) "png" 1).2 =
       ExportState.mk [⟨false, .rect ⟨.rect, 0, 0, 9, 9⟩⟩]
        [⟨"tl", 0, 0, true⟩]) :=
  ⟨by simp, export_hides_then_reshows_controls _ "png" 1 (by simp)⟩

/-- C9: the highlight computation falls back to the whole text as a single
unhighlighted part both when the query is empty and when regex compilation
fails (the `catch` branch), instead of propagating the error. -/
theorem highlight_error_fallback (text query : String)
    (isRegex isCaseSensitive : Bool)
    (compile : String → String → Option CompiledRegex)
    (h : query = "" ∨
      compile (highlightPattern isRegex query)
        (highlightFlags isCaseSensitive) = none) :
    highlightParts text query isRegex isCaseSensitive compile =
      [⟨text, false⟩] := by
  unfold highlightParts
  rcases h with h | h
  · rw [if_pos h]
  · split_ifs with hq
    · rfl
    · rw [h]

/-- Witness for C9: a lone open parenthesis in regex mode, with a compiler
that rejects the pattern. -/
theorem highlight_error_fallback_witness :
    (("(" : String) = "" ∨
      (fun (_ _ : String) => (none : Option CompiledRegex))
        (highlightPattern true "(") (highlightFlags false) = none) ∧
    highlightParts "hello" "(" true false
      (fun _ _ => (none : Option CompiledRegex)) = [⟨"hello", false⟩] :=
  ⟨Or.inr rfl, highlight_error_fallback "hello" "(" true false _ (Or.inr rfl)⟩

/-- C7: translating an arrow's data by (dx, dy) and back by (-dx, -dy)
reproduces the original data exactly (hence within any tolerance), and
`move` changes no field other than the four endpoint coordinates (`type` is
the only other field, and it is preserved). -/
theorem arrow_move_roundtrip (d : ArrowShapeData) (dx dy : ℚ) :
    arrowMove (arrowMove d dx dy) (-dx) (-dy) = d ∧
    (arrowMove d dx dy).type = d.type := by
  refine ⟨?_, rfl⟩
  cases d
  simp only [arrowMove, ArrowShapeData.mk.injEq, true_and]
  refine ⟨by ring, by ring, by ring, by ring⟩

/-- C6: for every pair of endpoints (at positive distance `len`) and every
stroke width, the arrow polygon emitted by `buildArrowPathData` is a single
closed path of exactly 7 vertices ordered tail corner, neck corner, head
outer corner, tip, head outer corner, neck corner, tail corner: vertex 3 is
the tip, vertices 0/6 sit at shaft half-width distance from the tail point,
vertices 1/5 at shaft half-width distance and vertices 2/4 at head
half-width distance from the neck, the neck sits at head-length distance
from the tip, the head length is `min (30·scale) (0.4·len)` — hence never
over 40% of the segment length — and the head half-width is exactly 5 times
the shaft half-width. -/
theorem buildArrowPathData_geometry (x1 y1 x2 y2 width len : ℚ)
    (hlen : 0 < len) (hpyth : len ^ 2 = (x2 - x1) ^ 2 + (y2 - y1) ^ 2) :
    (buildArrowVertices x1 y1 x2 y2 width len).length = 7 ∧
    (buildArrowVertices x1 y1 x2 y2 width len).getD 3 ⟨0, 0⟩ = ⟨x2, y2⟩ ∧
    sqDist ((buildArrowVertices x1 y1 x2 y2 width len).getD 0 ⟨0, 0⟩)
      ⟨x1, y1⟩ = arrowShaftWidth width ^ 2 ∧
    sqDist ((buildArrowVertices x1 y1 x2 y2 width len).getD 6 ⟨0, 0⟩)
      ⟨x1, y1⟩ = arrowShaftWidth width ^ 2 ∧
    sqDist ((buildArrowVertices x1 y1 x2 y2 width len).getD 1 ⟨0, 0⟩)
      (arrowNeck x1 y1 x2 y2 width len) = arrowShaftWidth width ^ 2 ∧
    sqDist ((buildArrowVertices x1 y1 x2 y2 width len).getD 5 ⟨0, 0⟩)
      (arrowNeck x1 y1 x2 y2 width len) = arrowShaftWidth width ^ 2 ∧
    sqDist ((buildArrowVertices x1 y1 x2 y2 width len).getD 2 ⟨0, 0⟩)
      (arrowNeck x1 y1 x2 y2 width len) = arrowHeadWidth width ^ 2 ∧
    sqDist ((buildArrowVertices x1 y1 x2 y2 width len).getD 4 ⟨0, 0⟩)
      (arrowNeck x1 y1 x2 y2 width len) = arrowHeadWidth width ^ 2 ∧
    sqDist (arrowNeck x1 y1 x2 y2 width len) ⟨x2, y2⟩ =
      arrowHeadLength width len ^ 2 ∧
    arrowHeadLength width len = min (30 * arrowScale width) (len * (2 / 5)) ∧
    arrowHeadLength width len ≤ len * (2 / 5) ∧
    arrowHeadWidth width = 5 * arrowShaftWidth width := by
  have hne : len ≠ 0 := ne_of_gt hlen
  have hunit : ((x2 - x1) / len) ^ 2 + ((y2 - y1) / len) ^ 2 = 1 := by
    field_simp
    linarith [hpyth]
  refine ⟨rfl, rfl, ?_, ?_, ?_, ?_, ?_, ?_, ?_, rfl, min_le_right _ _, ?_⟩
  · show (x1 + arrowShaftWidth width * -((y2 - y1) / len) - x1) ^ 2 +
        (y1 + arrowShaftWidth width * ((x2 - x1) / len) - y1) ^ 2 =
      arrowShaftWidth width ^ 2
    calc (x1 + arrowShaftWidth width * -((y2 - y1) / len) - x1) ^ 2 +
        (y1 + arrowShaftWidth width * ((x2 - x1) / len) - y1) ^ 2
        = arrowShaftWidth width ^ 2 *
            (((x2 - x1) / len) ^ 2 + ((y2 - y1) / len) ^ 2) := by ring
      _ = arrowShaftWidth width ^ 2 := by rw [hunit, mul_one]
  · show (x1 - arrowShaftWidth width * -((y2 - y1) / len) - x1) ^ 2 +
        (y1 - arrowShaftWidth width * ((x2 - x1) / len) - y1) ^ 2 =
      arrowShaftWidth width ^ 2
    calc (x1 - arrowShaftWidth width * -((y2 - y1) / len) - x1) ^ 2 +
        (y1 - arrowShaftWidth width * ((x2 - x1) / len) - y1) ^ 2
        = arrowShaftWidth width ^ 2 *
            (((x2 - x1) / len) ^ 2 + ((y2 - y1) / len) ^ 2) := by ring
      _ = arrowShaftWidth width ^ 2 := by rw [hunit, mul_one]
  · show ((arrowNeck x1 y1 x2 y2 width len).x +
          arrowShaftWidth width * -((y2 - y1) / len) -
        (arrowNeck x1 y1 x2 y2 width len).x) ^ 2 +
        ((arrowNeck x1 y1 x2 y2 width len).y +
          arrowShaftWidth width * ((x2 - x1) / len) -
        (arrowNeck x1 y1 x2 y2 width len).y) ^ 2 =
      arrowShaftWidth width ^ 2
    calc ((arrowNeck x1 y1 x2 y2 width len).x +
          arrowShaftWidth width * -((y2 - y1) / len) -
        (arrowNeck x1 y1 x2 y2 width len).x) ^ 2 +
        ((arrowNeck x1 y1 x2 y2 width len).y +
          arrowShaftWidth width * ((x2 - x1) / len) -
        (arrowNeck x1 y1 x2 y2 width len).y) ^ 2
        = arrowShaftWidth width ^ 2 *
            (((x2 - x1) / len) ^ 2 + ((y2 - y1) / len) ^ 2) := by ring
      _ = arrowShaftWidth width ^ 2 := by rw [hunit, mul_one]
  · show ((arrowNeck x1 y1 x2 y2 width len).x -
          arrowShaftWidth width * -((y2 - y1) / len) -
        (arrowNeck x1 y1 x2 y2 width len).x) ^ 2 +
        ((arrowNeck x1 y1 x2 y2 width len).y -
          arrowShaftWidth width * ((x2 - x1) / len) -
        (arrowNeck x1 y1 x2 y2 width len).y) ^ 2 =
      arrowShaftWidth width ^ 2
    calc ((arrowNeck x1 y1 x2 y2 width len).x -
          arrowShaftWidth width * -((y2 - y1) / len) -
        (arrowNeck x1 y1 x2 y2 width len).x) ^ 2 +
        ((arrowNeck x1 y1 x2 y2 width len).y -
          arrowShaftWidth width * ((x2 - x1) / len) -
        (arrowNeck x1 y1 x2 y2 width len).y) ^ 2
        = arrowShaftWidth width ^ 2 *
            (((x2 - x1) / len) ^ 2 + ((y2 - y1) / len) ^ 2) := by ring
      _ = arrowShaftWidth width ^ 2 := by rw [hunit, mul_one]
  · show ((arrowNeck x1 y1 x2 y2 width len).x +
          arrowHeadWidth width * -((y2 - y1) / len) -
        (arrowNeck x1 y1 x2 y2 width len).x) ^ 2 +
        ((arrowNeck x1 y1 x2 y2 width len).y +
          arrowHeadWidth width * ((x2 - x1) / len) -
        (arrowNeck x1 y1 x2 y2 width len).y) ^ 2 =
      arrowHeadWidth width ^ 2
    calc ((arrowNeck x1 y1 x2 y2 width len).x +
          arrowHeadWidth width * -((y2 - y1) / len) -
        (arrowNeck x1 y1 x2 y2 width len).x) ^ 2 +
        ((arrowNeck x1 y1 x2 y2 width len).y +
          arrowHeadWidth width * ((x2 - x1) / len) -
        (arrowNeck x1 y1 x2 y2 width len).y) ^ 2
        = arrowHeadWidth width ^ 2 *
            (((x2 - x1) / len) ^ 2 + ((y2 - y1) / len) ^ 2) := by ring
      _ = arrowHeadWidth width ^ 2 := by rw [hunit, mul_one]
  · show ((arrowNeck x1 y1 x2 y2 width len).x -
          arrowHeadWidth width * -((y2 - y1) / len) -
        (arrowNeck x1 y1 x2 y2 width len).x) ^ 2 +
        ((arrowNeck x1 y1 x2 y2 width len).y -
          arrowHeadWidth width * ((x2 - x1) / len) -
        (arrowNeck x1 y1 x2 y2 width len).y) ^ 2 =
      arrowHeadWidth width ^ 2
    calc ((arrowNeck x1 y1 x2 y2 width len).x -
          arrowHeadWidth width * -((y2 - y1) / len) -
        (arrowNeck x1 y1 x2 y2 width len).x) ^ 2 +
        ((arrowNeck x1 y1 x2 y2 width len).y -
          arrowHeadWidth width * ((x2 - x1) / len) -
        (arrowNeck x1 y1 x2 y2 width len).y) ^ 2
        = arrowHeadWidth width ^ 2 *
            (((x2 - x1) / len) ^ 2 + ((y2 - y1) / len) ^ 2) := by ring
      _ = arrowHeadWidth width ^ 2 := by rw [hunit, mul_one]
  · show (x2 - arrowHeadLength width len * ((x2 - x1) / len) - x2) ^ 2 +
        (y2 - arrowHeadLength width len * ((y2 - y1) / len) - y2) ^ 2 =
      arrowHeadLength width len ^ 2
    calc (x2 - arrowHeadLength width len * ((x2 - x1) / len) - x2) ^ 2 +
        (y2 - arrowHeadLength width len * ((y2 - y1) / len) - y2) ^ 2
        = arrowHeadLength width len ^ 2 *
            (((x2 - x1) / len) ^ 2 + ((y2 - y1) / len) ^ 2) := by ring
      _ = arrowHeadLength width len ^ 2 := by rw [hunit, mul_one]
  · show 10 * arrowScale width = 5 * (2 * arrowScale width)
    ring

/-- Witness for C6 at the 3-4-5 segment with stroke width 3. -/
theorem buildArrowPathData_geometry_witness :
    (0 : ℚ) < 5 ∧ (5 : ℚ) ^ 2 = (3 - 0) ^ 2 + (4 - 0) ^ 2 ∧
    ((buildArrowVertices 0 0 3 4 3 5).length = 7 ∧
     (buildArrowVertices 0 0 3 4 3 5).getD 3 ⟨0, 0⟩ = ⟨3, 4⟩ ∧
     sqDist ((buildArrowVertices 0 0 3 4 3 5).getD 0 ⟨0, 0⟩) ⟨0, 0⟩ =
       arrowShaftWidth 3 ^ 2 ∧
     sqDist ((buildArrowVertices 0 0 3 4 3 5).getD 6 ⟨0, 0⟩) ⟨0, 0⟩ =
       arrowShaftWidth 3 ^ 2 ∧
     sqDist ((buildArrowVertices 0 0 3 4 3 5).getD 1 ⟨0, 0⟩)
       (arrowNeck 0 0 3 4 3 5) = arrowShaftWidth 3 ^ 2 ∧
     sqDist ((buildArrowVertices 0 0 3 4 3 5).getD 5 ⟨0, 0⟩)
       (arrowNeck 0 0 3 4 3 5) = arrowShaftWidth 3 ^ 2 ∧
     sqDist ((buildArrowVertices 0 0 3 4 3 5).getD 2 ⟨0, 0⟩)
       (arrowNeck 0 0 3 4 3 5) = arrowHeadWidth 3 ^ 2 ∧
     sqDist ((buildArrowVertices 0 0 3 4 3 5).getD 4 ⟨0, 0⟩)
       (arrowNeck 0 0 3 4 3 5) = arrowHeadWidth 3 ^ 2 ∧
     sqDist (arrowNeck 0 0 3 4 3 5) ⟨3, 4⟩ = arrowHeadLength 3 5 ^ 2 ∧
     arrowHeadLength 3 5 = min (30 * arrowScale 3) (5 * (2 / 5)) ∧
     arrowHeadLength 3 5 ≤ 5 * (2 / 5) ∧
     arrowHeadWidth 3 = 5 * arrowShaftWidth 3) :=
  ⟨by norm_num, by norm_num,
    buildArrowPathData_geometry 0 0 3 4 3 5 (by norm_num) (by norm_num)⟩

end Clipboard
